import Mathlib

/-!
Shallow embedding of the geospatial nearest-neighbour enrichment core of
`src/api.py` (class `DashApi`).

Modelling conventions:
* Floating-point coordinates and distances are idealised as real numbers.
* A shapely geometry is a bare planar point `Pt` (it carries no CRS tag,
  exactly as in the source, where only GeoSeries/GeoDataFrames carry one).
* `pyproj` reprojection (the implementation behind `to_crs`) is an external
  library; it is modelled as an abstract parameter
  `proj : CRS -> CRS -> Pt -> Pt` mapping a point from a source CRS to a
  target CRS.  `to_crs` itself (tag bookkeeping, the error on a missing
  tag) is modelled from its observable geopandas behaviour.
* A pandas cell assignment `df.at[idx, col] = v` is an ordered
  association-list update (`setField`); fallible operations return
  `Except String`.
* `geopy`'s geocoder is an external collaborator, modelled as an abstract
  function into an outcome type covering the cases the source handles.
-/

/-- EPSG coordinate reference system identifier, e.g. "EPSG:4326". -/
abbrev CRS := String

/-- `DashApi.WGS84`. -/
def WGS84 : CRS := "EPSG:4326"

/-- `DashApi.UTM_ZONE_19N` (projected system used for distance measurement). -/
def UTM_ZONE_19N : CRS := "EPSG:32619"

/-- `DashApi.METERS_PER_MILE`. -/
def METERS_PER_MILE : ℝ := 1609.34

/-- A planar point (shapely geometry), coordinates idealised as reals. -/
structure Pt where
  x : ℝ
  y : ℝ

/-- Planar Euclidean distance between two points, as computed by
`GeoSeries.distance` on projected coordinates. -/
noncomputable def pdist (p q : Pt) : ℝ :=
  Real.sqrt ((p.x - q.x) ^ 2 + (p.y - q.y) ^ 2)

/-- Attribute cell values occurring in the facility tables
(strings such as `store_type`/`coname`, integers such as `postal_cod`,
decimal numbers). -/
inductive AttrVal where
  | s (v : String)
  | i (v : Int)
  | q (v : ℚ)
deriving DecidableEq

/-- Cell values of the dorm table: loaded attributes plus the cells written
by enrichment (real-valued distances, store geometries). -/
inductive DormVal where
  | s (v : String)
  | i (v : Int)
  | q (v : ℚ)
  | r (v : ℝ)
  | g (p : Pt)

/-- Embeds a facility attribute value into a dorm table cell (the value
`store.get(store_name_key, default_name)` assigned by the source). -/
def AttrVal.toDorm : AttrVal → DormVal
  | .s v => .s v
  | .i v => .i v
  | .q v => .q v

/-- One record (row) of a GeoDataFrame: named attribute cells plus a
geometry column. -/
structure GeoRow (α : Type) where
  attrs : List (String × α)
  geometry : Pt

/-- A GeoDataFrame: an optional CRS tag and an ordered list of rows. -/
structure GeoFrame (α : Type) where
  crs : Option CRS
  rows : List (GeoRow α)

/-- A GeoSeries of bare geometries with an optional CRS tag. -/
structure GeoSeries where
  crs : Option CRS
  pts : List Pt

/-- `GeoSeries.to_crs`: reprojects every point into `target`.
Reprojecting a series that carries no CRS tag is an error (geopandas:
"Cannot transform naive geometries"), surfaced to the caller. -/
def GeoSeries.to_crs (proj : CRS → CRS → Pt → Pt) (target : CRS)
    (s : GeoSeries) : Except String GeoSeries :=
  match s.crs with
  | none => .error "Cannot transform naive geometries."
  | some c => .ok { crs := some target, pts := s.pts.map (proj c target) }

/-- `GeoDataFrame.to_crs` with a concrete target CRS: reprojects every
row's geometry; errors when the frame carries no CRS tag. -/
def GeoFrame.to_crs {α : Type} (proj : CRS → CRS → Pt → Pt) (target : CRS)
    (g : GeoFrame α) : Except String (GeoFrame α) :=
  match g.crs with
  | none => .error "Cannot transform naive geometries."
  | some c =>
      let reproject := fun (r : GeoRow α) =>
        { r with geometry := proj c target r.geometry }
      .ok { crs := some target, rows := g.rows.map reproject }

/-- `GeoDataFrame.to_crs` called with an optional CRS (the source passes
`dorms.crs`, which may itself be unset; geopandas then raises
"Must pass either crs or epsg"). -/
def GeoFrame.to_crsTarget {α : Type} (proj : CRS → CRS → Pt → Pt)
    (target : Option CRS) (g : GeoFrame α) : Except String (GeoFrame α) :=
  match target with
  | none => .error "Must pass either crs or epsg"
  | some t => GeoFrame.to_crs proj t g

/-- `pandas.Series.min` over a list of distances (no NaN in the model);
`0` on the empty list, which the source never queries. -/
noncomputable def seriesMin : List ℝ → ℝ
  | [] => 0
  | d :: ds => ds.foldl min d

/-- Position of the first occurrence of `x` in a list; applied to the
minimum this is exactly `pandas.Series.argmin`, which returns the
positional index of the first occurrence of the smallest value. -/
noncomputable def firstIdxOf (x : ℝ) : List ℝ → ℕ
  | [] => 0
  | a :: as => if a = x then 0 else firstIdxOf x as + 1

/-- Row used as the (never exercised in-range) default of positional
indexing. -/
def defaultStoreRow : GeoRow AttrVal :=
  { attrs := [], geometry := { x := 0, y := 0 } }

/-- `DashApi.find_nearest_store`: nearest store to a dorm geometry with
distance in meters.  Returns `.ok none` for an empty store set, mirrors
`(None, None)`.  The dorm geometry is wrapped as
`gpd.GeoSeries([dorm_geom], crs=WGS84)` and both it and the store frame
are reprojected to UTM zone 19N before measuring. -/
noncomputable def find_nearest_store (proj : CRS → CRS → Pt → Pt)
    (dorm_geom : Pt) (stores_gdf : GeoFrame AttrVal) :
    Except String (Option (ℝ × GeoRow AttrVal)) :=
  if stores_gdf.rows.length = 0 then .ok none
  else
    match GeoSeries.to_crs proj UTM_ZONE_19N
        { crs := some WGS84, pts := [dorm_geom] } with
    | .error e => .error e
    | .ok dorm_proj =>
      match GeoFrame.to_crs proj UTM_ZONE_19N stores_gdf with
      | .error e => .error e
      | .ok stores_proj =>
        let dormPt := dorm_proj.pts.getD 0 { x := 0, y := 0 }
        let distances := stores_proj.rows.map (fun r => pdist r.geometry dormPt)
        let min_distance := seriesMin distances
        let nearest_store_idx := firstIdxOf min_distance distances
        .ok (some (min_distance,
                   stores_gdf.rows.getD nearest_store_idx defaultStoreRow))

/-- The list of candidate distances measured by `find_nearest_store`:
distance from each candidate, reprojected from the store frame's CRS `c`
into UTM zone 19N, to the dorm point reprojected from WGS84. -/
noncomputable def storeDistances (proj : CRS → CRS → Pt → Pt) (c : CRS)
    (dorm_geom : Pt) (stores_gdf : GeoFrame AttrVal) : List ℝ :=
  stores_gdf.rows.map
    (fun r => pdist (proj c UTM_ZONE_19N r.geometry)
                    (proj WGS84 UTM_ZONE_19N dorm_geom))

/-- `DashApi.align_crs`: aligns the three store frames to the dorm
frame's CRS; a frame whose CRS already matches is passed through
untouched. -/
def align_crs {α : Type} (proj : CRS → CRS → Pt → Pt)
    (dorms : GeoFrame α) (convenience_stores grocery_stores boston_tjs :
      GeoFrame AttrVal) :
    Except String (GeoFrame AttrVal × GeoFrame AttrVal × GeoFrame AttrVal) :=
  match (if convenience_stores.crs ≠ dorms.crs
         then GeoFrame.to_crsTarget proj dorms.crs convenience_stores
         else .ok convenience_stores) with
  | .error e => .error e
  | .ok conv =>
    match (if grocery_stores.crs ≠ dorms.crs
           then GeoFrame.to_crsTarget proj dorms.crs grocery_stores
           else .ok grocery_stores) with
    | .error e => .error e
    | .ok groc =>
      match (if boston_tjs.crs ≠ dorms.crs
             then GeoFrame.to_crsTarget proj dorms.crs boston_tjs
             else .ok boston_tjs) with
      | .error e => .error e
      | .ok tjs => .ok (conv, groc, tjs)

/-- Scalar-or-list argument of `filter_by_column` (the source dispatches
on `isinstance(value, list)`). -/
inductive PyVal (α : Type) where
  | scalar (v : α)
  | vlist (vs : List α)

/-- `DashApi.filter_by_column`: boolean-mask filter.  A list value is a
membership test (`.isin`), a scalar value an equality test; a missing
cell matches nothing (pandas NaN comparison). -/
def filter_by_column {α : Type} [DecidableEq α] (data : GeoFrame α)
    (column : String) (value : PyVal α) : GeoFrame α :=
  match value with
  | .vlist vs =>
      let mask := fun (r : GeoRow α) =>
        match r.attrs.lookup column with
        | some v => decide (v ∈ vs)
        | none => false
      { data with rows := data.rows.filter mask }
  | .scalar v =>
      let mask := fun (r : GeoRow α) => decide (r.attrs.lookup column = some v)
      { data with rows := data.rows.filter mask }

/-- The row predicate applied by `filter_by_column`. -/
def rowMatches {α : Type} [DecidableEq α] (column : String) (value : PyVal α)
    (r : GeoRow α) : Bool :=
  match value with
  | .vlist vs =>
      match r.attrs.lookup column with
      | some v => decide (v ∈ vs)
      | none => false
  | .scalar v => decide (r.attrs.lookup column = some v)

/-- `DashApi.BOSTON_ZIPS`. -/
def BOSTON_ZIPS : List AttrVal :=
  [.i 2116, .i 2115, .i 2446, .i 2139, .i 2494, .i 2476, .i 2465, .i 2138,
   .i 1803, .i 1906, .i 1960]

/-- `DashApi.STORE_TYPE_CONVENIENCE`. -/
def STORE_TYPE_CONVENIENCE : AttrVal :=
  .s "Convenience Stores, Pharmacies, and Drug Stores"

/-- `DashApi.STORE_TYPE_GROCERY`. -/
def STORE_TYPE_GROCERY : AttrVal := .s "Supermarket or Other Grocery"

/-- `DashApi.get_convenience_stores`. -/
def get_convenience_stores (data : GeoFrame AttrVal) : GeoFrame AttrVal :=
  filter_by_column data "store_type" (.scalar STORE_TYPE_CONVENIENCE)

/-- `DashApi.get_grocery_stores`. -/
def get_grocery_stores (data : GeoFrame AttrVal) : GeoFrame AttrVal :=
  filter_by_column data "store_type" (.scalar STORE_TYPE_GROCERY)

/-- `DashApi.get_boston_trader_joes`. -/
def get_boston_trader_joes (data : GeoFrame AttrVal) : GeoFrame AttrVal :=
  filter_by_column data "postal_cod" (.vlist BOSTON_ZIPS)

/-- Single pandas cell assignment `df.at[idx, col] = v` restricted to one
row: replaces the cell in place when the column exists, otherwise appends
the new column at the end. -/
def setField {β : Type} (k : String) (v : β) :
    List (String × β) → List (String × β)
  | [] => [(k, v)]
  | (k₂, v₂) :: rest =>
      if k₂ = k then (k, v) :: rest else (k₂, v₂) :: setField k v rest

/-- A sequence of cell assignments, applied first to last. -/
def writeAll {β : Type} : List (String × β) → List (String × β) →
    List (String × β)
  | [], l => l
  | (k, v) :: ws, l => writeAll ws (setField k v l)

/-- The four cells written for one category by
`DashApi._add_store_info_to_dorm`, in assignment order. -/
noncomputable def nearestWrites (pre store_name_key default_name : String)
    (dist : ℝ) (store : GeoRow AttrVal) : List (String × DormVal) :=
  [("nearest_" ++ pre ++ "_dist_m", .r dist),
   ("nearest_" ++ pre ++ "_miles", .r (dist / METERS_PER_MILE)),
   ("nearest_" ++ pre ++ "_name",
      ((store.attrs.lookup store_name_key).getD (.s default_name)).toDorm),
   ("nearest_" ++ pre ++ "_geom", .g store.geometry)]

/-- The four column names written for one category. -/
def nearestKeys (pre : String) : List String :=
  ["nearest_" ++ pre ++ "_dist_m", "nearest_" ++ pre ++ "_miles",
   "nearest_" ++ pre ++ "_name", "nearest_" ++ pre ++ "_geom"]

/-- All twelve enrichment column names, over the categories
grocery, pharmacy and tj. -/
def nearest_column_names : List String :=
  nearestKeys "grocery" ++ nearestKeys "pharmacy" ++ nearestKeys "tj"

/-- `DashApi._add_store_info_to_dorm` acting on one dorm row:
when a distance is present, writes the four category cells
(`dist_m`, `miles`, `name`, `geom`); when the resolver returned
`(None, None)`, writes nothing. -/
noncomputable def add_store_info_to_dorm (dorm : GeoRow DormVal)
    (res : Option (ℝ × GeoRow AttrVal))
    (pre store_name_key default_name : String) : GeoRow DormVal :=
  match res with
  | none => dorm
  | some (dist, store) =>
      let attrs₂ :=
        writeAll (nearestWrites pre store_name_key default_name dist store)
          dorm.attrs
      { dorm with attrs := attrs₂ }

/-- The body of the per-dorm loop of `DashApi.add_nearest_store_columns`:
resolve and record the nearest grocery store, pharmacy/convenience store
and Trader Joe's for one dorm row.  The dorm geometry is read once from
the row snapshot, as `dorm.geometry` is in the source loop. -/
noncomputable def enrich_one_dorm (proj : CRS → CRS → Pt → Pt)
    (convenience_stores grocery_stores boston_tjs : GeoFrame AttrVal)
    (dorm : GeoRow DormVal) : Except String (GeoRow DormVal) :=
  let g := dorm.geometry
  match find_nearest_store proj g grocery_stores with
  | .error e => .error e
  | .ok res₁ =>
    let dorm₁ := add_store_info_to_dorm dorm res₁
        "grocery" "coname" "Unknown Grocery Store"
    match find_nearest_store proj g convenience_stores with
    | .error e => .error e
    | .ok res₂ =>
      let dorm₂ := add_store_info_to_dorm dorm₁ res₂
          "pharmacy" "coname" "Unknown Pharmacy"
      match find_nearest_store proj g boston_tjs with
      | .error e => .error e
      | .ok res₃ =>
        .ok (add_store_info_to_dorm dorm₂ res₃
          "tj" "city_name" "Trader Joe's")

/-- Effectful map over the rows, first to last, stopping at the first
error — the row loop of `add_nearest_store_columns`. -/
def exMapM {σ γ : Type} (f : σ → Except String γ) :
    List σ → Except String (List γ)
  | [] => .ok []
  | a :: as =>
    match f a with
    | .error e => .error e
    | .ok b =>
      match exMapM f as with
      | .error e => .error e
      | .ok bs => .ok (b :: bs)

/-- `DashApi.add_nearest_store_columns`: for every dorm row, resolves and
records the nearest store of each category, then returns the (mutated)
dorm frame itself. -/
noncomputable def add_nearest_store_columns (proj : CRS → CRS → Pt → Pt)
    (dorms : GeoFrame DormVal)
    (convenience_stores grocery_stores boston_tjs : GeoFrame AttrVal) :
    Except String (GeoFrame DormVal) :=
  match exMapM
      (enrich_one_dorm proj convenience_stores grocery_stores boston_tjs)
      dorms.rows with
  | .error e => .error e
  | .ok rows => .ok { dorms with rows := rows }

/-- Outcome of one call to the external geocoding collaborator
(`geopy.Nominatim.geocode`): a location, no match, or one of the two
exception classes the source catches. -/
inductive GeoOutcome where
  | found (lat lon : ℝ)
  | notFound
  | timedOut
  | serviceError

/-- `DashApi.geocode_address`: appends ", Boston, MA", queries the
external geocoder, and maps no-match, timeout and service error all to
`none`. -/
def geocode_address (geocode : String → GeoOutcome) (address : String) :
    Option (ℝ × ℝ) :=
  match geocode (address ++ ", Boston, MA") with
  | .found lat lon => some (lat, lon)
  | .notFound => none
  | .timedOut => none
  | .serviceError => none

/-! ## Concrete fixtures (small test data used in closed statements) -/

/-- The identity reprojection, used as the abstract `proj` parameter when a
statement is about already-projected scenario coordinates. -/
def idProj : CRS → CRS → Pt → Pt := fun _ _ p => p

/-- Grocery candidate at projected offset (100, 0) from the reference. -/
def gRowA : GeoRow AttrVal :=
  { attrs := [("coname", .s "Star Market")], geometry := { x := 100, y := 0 } }

/-- Grocery candidate at projected offset (0, 50) from the reference. -/
def gRowB : GeoRow AttrVal :=
  { attrs := [("coname", .s "Stop and Shop")], geometry := { x := 0, y := 50 } }

/-- Grocery candidate at projected offset (200, 200) from the reference. -/
def gRowC : GeoRow AttrVal :=
  { attrs := [("coname", .s "Wegmans")], geometry := { x := 200, y := 200 } }

/-- Three grocery candidates at known offsets (spec scenario). -/
def grocFixture : GeoFrame AttrVal :=
  { crs := some WGS84, rows := [gRowA, gRowB, gRowC] }

/-- Tie fixture: its first two candidates are equidistant from (0,0). -/
def tieRowA : GeoRow AttrVal :=
  { attrs := [("coname", .s "first of the tie")],
    geometry := { x := 0, y := 50 } }

/-- Second member of the tie, listed after `tieRowA`. -/
def tieRowB : GeoRow AttrVal :=
  { attrs := [("coname", .s "second of the tie")],
    geometry := { x := 0, y := 50 } }

/-- A strictly farther candidate. -/
def tieRowC : GeoRow AttrVal :=
  { attrs := [("coname", .s "far away")], geometry := { x := 0, y := 100 } }

/-- Candidate set containing a distance tie between its first two rows. -/
def tieFixture : GeoFrame AttrVal :=
  { crs := some WGS84, rows := [tieRowA, tieRowB, tieRowC] }

/-- A store exactly 3-4-5 away from the origin, for exact-distance checks. -/
def storeRow345 : GeoRow AttrVal :=
  { attrs := [("coname", .s "Corner Store")], geometry := { x := 3, y := 4 } }

/-- A tagged frame holding `storeRow345`. -/
def frame345 : GeoFrame AttrVal :=
  { crs := some WGS84, rows := [storeRow345] }

/-- A convenience store exactly 1609.34 m (one mile) from the origin. -/
noncomputable def cvsRow : GeoRow AttrVal :=
  { attrs := [("coname", .s "CVS")], geometry := { x := 1609.34, y := 0 } }

/-- Tagged frame holding the one-mile convenience store. -/
noncomputable def convFixture : GeoFrame AttrVal :=
  { crs := some WGS84, rows := [cvsRow] }

/-- An empty, tagged store frame. -/
def emptyStores : GeoFrame AttrVal := { crs := some WGS84, rows := [] }

/-- A non-empty store frame carrying no CRS tag (naive geometries). -/
def naiveStores : GeoFrame AttrVal := { crs := none, rows := [storeRow345] }

/-- One dorm row with pre-existing name and price cells at the origin. -/
def dormRowFixture : GeoRow DormVal :=
  { attrs := [("name", .s "Melvin Hall"), ("price", .q 1200)],
    geometry := { x := 0, y := 0 } }

/-- A dorm frame holding the single fixture row. -/
def dormsFixture : GeoFrame DormVal :=
  { crs := some WGS84, rows := [dormRowFixture] }

/-- Trader Joe's record with postal code 2116. -/
def tjRow2116 : GeoRow AttrVal :=
  { attrs := [("postal_cod", .i 2116), ("city_name", .s "Boston")],
    geometry := { x := 0, y := 0 } }

/-- Trader Joe's record with postal code 2117. -/
def tjRow2117 : GeoRow AttrVal :=
  { attrs := [("postal_cod", .i 2117), ("city_name", .s "Cambridge")],
    geometry := { x := 1, y := 1 } }

/-- Frame with postal codes [2116, 2117] (spec filtering scenario). -/
def tjFixture : GeoFrame AttrVal :=
  { crs := some WGS84, rows := [tjRow2116, tjRow2117] }

/-- An external geocoder that always times out. -/
def timeoutGeocoder : String → GeoOutcome := fun _ => .timedOut

/-! ## List-level helper lemmas -/

lemma foldl_min_le_init (ds : List ℝ) (d : ℝ) : ds.foldl min d ≤ d := by
  induction ds generalizing d with
  | nil => exact le_refl d
  | cons a as ih =>
      calc (a :: as).foldl min d = as.foldl min (min d a) := rfl
        _ ≤ min d a := ih (min d a)
        _ ≤ d := min_le_left d a

lemma foldl_min_le_mem (ds : List ℝ) (d x : ℝ) (hx : x ∈ ds) :
    ds.foldl min d ≤ x := by
  induction ds generalizing d with
  | nil => cases hx
  | cons a as ih =>
      rcases List.mem_cons.mp hx with h | h
      · subst h
        calc (x :: as).foldl min d = as.foldl min (min d x) := rfl
          _ ≤ min d x := foldl_min_le_init as (min d x)
          _ ≤ x := min_le_right d x
      · exact ih (min d a) h

lemma foldl_min_mem (ds : List ℝ) (d : ℝ) :
    ds.foldl min d = d ∨ ds.foldl min d ∈ ds := by
  induction ds generalizing d with
  | nil => exact Or.inl rfl
  | cons a as ih =>
      rcases ih (min d a) with h | h
      · rcases min_cases d a with ⟨hm, _⟩ | ⟨hm, _⟩
        · left
          calc (a :: as).foldl min d = as.foldl min (min d a) := rfl
            _ = min d a := h
            _ = d := hm
        · right
          have : (a :: as).foldl min d = a := by
            calc (a :: as).foldl min d = as.foldl min (min d a) := rfl
              _ = min d a := h
              _ = a := hm
          rw [this]; exact List.mem_cons_self a as
      · right
        exact List.mem_cons.mpr (Or.inr h)

lemma seriesMin_le (ds : List ℝ) (x : ℝ) (hx : x ∈ ds) : seriesMin ds ≤ x := by
  cases ds with
  | nil => cases hx
  | cons a as =>
      rcases List.mem_cons.mp hx with h | h
      · subst h; exact foldl_min_le_init as x
      · exact foldl_min_le_mem as a x h

lemma seriesMin_mem (ds : List ℝ) (h : ds ≠ []) : seriesMin ds ∈ ds := by
  cases ds with
  | nil => exact absurd rfl h
  | cons a as =>
      rcases foldl_min_mem as a with h' | h'
      · rw [seriesMin, h']; exact List.mem_cons_self a as
      · exact List.mem_cons.mpr (Or.inr h')

lemma firstIdxOf_lt_length (x : ℝ) (ds : List ℝ) (hx : x ∈ ds) :
    firstIdxOf x ds < ds.length := by
  induction ds with
  | nil => cases hx
  | cons a as ih =>
      rw [firstIdxOf]
      by_cases h : a = x
      · rw [if_pos h]; exact Nat.succ_pos _
      · rw [if_neg h]
        have hx' : x ∈ as := by
          rcases List.mem_cons.mp hx with h' | h'
          · exact absurd h'.symm h
          · exact h'
        exact Nat.succ_lt_succ (ih hx')

lemma getD_firstIdxOf (x : ℝ) (ds : List ℝ) (hx : x ∈ ds) (d₀ : ℝ) :
    ds.getD (firstIdxOf x ds) d₀ = x := by
  induction ds with
  | nil => cases hx
  | cons a as ih =>
      rw [firstIdxOf]
      by_cases h : a = x
      · rw [if_pos h]; exact h
      · rw [if_neg h]
        have hx' : x ∈ as := by
          rcases List.mem_cons.mp hx with h' | h'
          · exact absurd h'.symm h
          · exact h'
        simpa using ih hx'

lemma getD_ne_of_lt_firstIdxOf (x : ℝ) (ds : List ℝ) (m : ℕ)
    (hm : m < firstIdxOf x ds) (d₀ : ℝ) : ds.getD m d₀ ≠ x := by
  induction ds generalizing m with
  | nil => simp [firstIdxOf] at hm
  | cons a as ih =>
      rw [firstIdxOf] at hm
      by_cases h : a = x
      · rw [if_pos h] at hm; cases hm
      · rw [if_neg h] at hm
        cases m with
        | zero => simpa using h
        | succ m' =>
            have : m' < firstIdxOf x as := Nat.lt_of_succ_lt_succ hm
            simpa using ih m' this

lemma getD_map_lt {σ γ : Type} (f : σ → γ) (l : List σ) (i : ℕ)
    (hi : i < l.length) (d₀ : σ) (d₁ : γ) :
    (l.map f).getD i d₁ = f (l.getD i d₀) := by
  induction l generalizing i with
  | nil => cases hi
  | cons a as ih =>
      cases i with
      | zero => rfl
      | succ i' =>
          have : i' < as.length := Nat.lt_of_succ_lt_succ hi
          simpa using ih i' this

/-! ## Characterisation of the resolver -/

lemma find_nearest_store_ok (proj : CRS → CRS → Pt → Pt) (dorm_geom : Pt)
    (stores_gdf : GeoFrame AttrVal) (c : CRS) (hc : stores_gdf.crs = some c)
    (hne : stores_gdf.rows ≠ []) :
    find_nearest_store proj dorm_geom stores_gdf =
      .ok (some (seriesMin (storeDistances proj c dorm_geom stores_gdf),
        stores_gdf.rows.getD
          (firstIdxOf (seriesMin (storeDistances proj c dorm_geom stores_gdf))
            (storeDistances proj c dorm_geom stores_gdf))
          defaultStoreRow)) := by
  obtain ⟨crs₀, rows₀⟩ := stores_gdf
  simp only at hc
  subst hc
  have hlen : rows₀.length ≠ 0 := fun h => hne (List.length_eq_zero.mp h)
  rw [find_nearest_store, if_neg hlen]
  simp only [GeoSeries.to_crs, GeoFrame.to_crs, storeDistances,
    List.map_map, List.getD, List.map_cons, List.map_nil]
  rfl

lemma find_nearest_store_singleton (proj : CRS → CRS → Pt → Pt)
    (dorm_geom : Pt) (c : CRS) (r : GeoRow AttrVal) :
    find_nearest_store proj dorm_geom { crs := some c, rows := [r] } =
      .ok (some (pdist (proj c UTM_ZONE_19N r.geometry)
          (proj WGS84 UTM_ZONE_19N dorm_geom), r)) := by
  rw [find_nearest_store_ok proj dorm_geom _ c rfl (by simp)]
  simp only [storeDistances, List.map_cons, List.map_nil, seriesMin,
    List.foldl_nil, firstIdxOf, if_pos rfl, List.getD]
  rfl

lemma getD_mem_of_lt {σ : Type} (l : List σ) (i : ℕ) (hi : i < l.length)
    (d₀ : σ) : l.getD i d₀ ∈ l := by
  rw [List.getD_eq_getElem l d₀ hi]
  exact List.getElem_mem hi

/-! ## Claim theorems -/

/-- Claim C1: for every reference point and non-empty candidate set,
`find_nearest_store` returns a distance and a facility drawn from the
candidate set such that the distance, measured in the projected UTM
system, equals the distance to the returned facility and is less than or
equal to the distance to every candidate in the set. -/
theorem nearest_store_is_minimum (proj : CRS → CRS → Pt → Pt)
    (dorm_geom : Pt) (stores_gdf : GeoFrame AttrVal) (c : CRS)
    (hc : stores_gdf.crs = some c) (hne : stores_gdf.rows ≠ []) :
    ∃ d s, find_nearest_store proj dorm_geom stores_gdf = .ok (some (d, s)) ∧
      s ∈ stores_gdf.rows ∧
      d = pdist (proj c UTM_ZONE_19N s.geometry)
            (proj WGS84 UTM_ZONE_19N dorm_geom) ∧
      ∀ r ∈ stores_gdf.rows,
        d ≤ pdist (proj c UTM_ZONE_19N r.geometry)
              (proj WGS84 UTM_ZONE_19N dorm_geom) := by
  have hdne : storeDistances proj c dorm_geom stores_gdf ≠ [] := by
    simpa [storeDistances] using hne
  have hmem := seriesMin_mem _ hdne
  have hidx := firstIdxOf_lt_length _ _ hmem
  have hlen : (storeDistances proj c dorm_geom stores_gdf).length =
      stores_gdf.rows.length := by
    simp [storeDistances]
  have hidx' : firstIdxOf
      (seriesMin (storeDistances proj c dorm_geom stores_gdf))
      (storeDistances proj c dorm_geom stores_gdf) <
      stores_gdf.rows.length := hlen ▸ hidx
  refine ⟨seriesMin (storeDistances proj c dorm_geom stores_gdf),
    stores_gdf.rows.getD
      (firstIdxOf (seriesMin (storeDistances proj c dorm_geom stores_gdf))
        (storeDistances proj c dorm_geom stores_gdf)) defaultStoreRow,
    find_nearest_store_ok proj dorm_geom stores_gdf c hc hne,
    getD_mem_of_lt _ _ hidx' _, ?_, ?_⟩
  · have h₁ := getD_firstIdxOf
      (seriesMin (storeDistances proj c dorm_geom stores_gdf))
      (storeDistances proj c dorm_geom stores_gdf) hmem 0
    have h₂ := getD_map_lt
      (fun r => pdist (proj c UTM_ZONE_19N r.geometry)
        (proj WGS84 UTM_ZONE_19N dorm_geom))
      stores_gdf.rows
      (firstIdxOf (seriesMin (storeDistances proj c dorm_geom stores_gdf))
        (storeDistances proj c dorm_geom stores_gdf))
      hidx' defaultStoreRow 0
    exact h₁.symm.trans h₂
  · intro r hr
    exact seriesMin_le _ _ (List.mem_map_of_mem _ hr)

/-- Witness for C1: the spec scenario with candidates at (100,0), (0,50)
and (200,200) from a reference at the origin (coordinates already
projected, so the abstract reprojection is the identity). -/
theorem nearest_store_is_minimum_witness :
    grocFixture.crs = some WGS84 ∧ grocFixture.rows ≠ [] ∧
    (∃ d s, find_nearest_store idProj { x := 0, y := 0 } grocFixture =
        .ok (some (d, s)) ∧
      s ∈ grocFixture.rows ∧
      d = pdist (idProj WGS84 UTM_ZONE_19N s.geometry)
            (idProj WGS84 UTM_ZONE_19N { x := 0, y := 0 }) ∧
      ∀ r ∈ grocFixture.rows,
        d ≤ pdist (idProj WGS84 UTM_ZONE_19N r.geometry)
              (idProj WGS84 UTM_ZONE_19N { x := 0, y := 0 })) :=
  ⟨rfl, by simp [grocFixture],
   nearest_store_is_minimum idProj { x := 0, y := 0 } grocFixture WGS84 rfl
     (by simp [grocFixture])⟩

/-- Claim C2: on an empty candidate set the resolver returns
`(None, None)` without raising; `_add_store_info_to_dorm` applied to an
absent result leaves the dorm row untouched (no zero, no sentinel); and
a whole enrichment pass over empty candidate sets leaves the dorm frame
unchanged. -/
theorem empty_candidates_absent :
    (∀ (proj : CRS → CRS → Pt → Pt) (g : Pt) (crs₀ : Option CRS),
        find_nearest_store proj g { crs := crs₀, rows := [] } = .ok none) ∧
    (∀ (dorm : GeoRow DormVal) (pre store_name_key default_name : String),
        add_store_info_to_dorm dorm none pre store_name_key default_name =
          dorm) ∧
    (∀ (proj : CRS → CRS → Pt → Pt) (dorms : GeoFrame DormVal)
        (c₁ c₂ c₃ : Option CRS),
        add_nearest_store_columns proj dorms { crs := c₁, rows := [] }
          { crs := c₂, rows := [] } { crs := c₃, rows := [] } = .ok dorms) := by
  refine ⟨fun proj g crs₀ => rfl, fun dorm pre k dfl => rfl, ?_⟩
  intro proj dorms c₁ c₂ c₃
  have hrow : ∀ dorm,
      enrich_one_dorm proj { crs := c₁, rows := [] }
        { crs := c₂, rows := [] } { crs := c₃, rows := [] } dorm =
        .ok dorm := fun dorm => rfl
  have hmap : exMapM
      (enrich_one_dorm proj { crs := c₁, rows := [] }
        { crs := c₂, rows := [] } { crs := c₃, rows := [] })
      dorms.rows = .ok dorms.rows := by
    induction dorms.rows with
    | nil => rfl
    | cons a as ih =>
        rw [exMapM, hrow a, ih]
  rw [add_nearest_store_columns, hmap]

lemma pdist_345 : pdist { x := 3, y := 4 } { x := 0, y := 0 } = 5 := by
  have h : (({ x := 3, y := 4 } : Pt).x - ({ x := 0, y := 0 } : Pt).x) ^ 2 +
      (({ x := 3, y := 4 } : Pt).y - ({ x := 0, y := 0 } : Pt).y) ^ 2 =
      (5 : ℝ) ^ 2 := by
    norm_num
  rw [pdist, h, Real.sqrt_sq (by norm_num : (0:ℝ) ≤ 5)]

/-- Counterexample to C3: the reference point is a bare geometry and thus
never carries a reference-system tag, yet the resolver does not error —
it succeeds, having silently tagged the point as WGS84
(`gpd.GeoSeries([dorm_geom], crs=self.WGS84)`).  Under the claim, this
call would have to raise UndefinedCRS. -/
theorem untagged_reference_point_not_error :
    find_nearest_store idProj { x := 0, y := 0 } frame345 =
      .ok (some (5, storeRow345)) := by
  have h := find_nearest_store_singleton idProj { x := 0, y := 0 } WGS84
    storeRow345
  rw [show frame345 = { crs := some WGS84, rows := [storeRow345] } from rfl, h,
    show idProj WGS84 UTM_ZONE_19N storeRow345.geometry = storeRow345.geometry
      from rfl,
    show idProj WGS84 UTM_ZONE_19N { x := 0, y := 0 } =
      ({ x := 0, y := 0 } : Pt) from rfl,
    show storeRow345.geometry = { x := 3, y := 4 } from rfl, pdist_345]

/-- Claim C3 (amended): reprojecting a point COLLECTION that carries no
reference-system tag errors, surfaced to the caller, and in particular
the resolver errors when the candidate frame lacks a tag; the reference
point, however, is received as a bare geometry without a tag and the
resolver explicitly assigns it WGS84 before reprojecting, so the missing
tag on the reference point never raises. -/
theorem undefined_crs_error (proj : CRS → CRS → Pt → Pt) (g : Pt)
    (stores_gdf : GeoFrame AttrVal) (hc : stores_gdf.crs = none)
    (hne : stores_gdf.rows ≠ []) :
    GeoFrame.to_crs proj UTM_ZONE_19N stores_gdf =
      .error "Cannot transform naive geometries." ∧
    find_nearest_store proj g stores_gdf =
      .error "Cannot transform naive geometries." ∧
    GeoSeries.to_crs proj UTM_ZONE_19N { crs := some WGS84, pts := [g] } =
      .ok { crs := some UTM_ZONE_19N, pts := [proj WGS84 UTM_ZONE_19N g] } := by
  obtain ⟨crs₀, rows₀⟩ := stores_gdf
  simp only at hc
  subst hc
  have hlen : rows₀.length ≠ 0 := fun h => hne (List.length_eq_zero.mp h)
  refine ⟨rfl, ?_, rfl⟩
  rw [find_nearest_store, if_neg hlen]
  rfl

/-- Witness for the amended C3, at a concrete naive (untagged) candidate
frame. -/
theorem undefined_crs_error_witness :
    naiveStores.crs = none ∧ naiveStores.rows ≠ [] ∧
    (GeoFrame.to_crs idProj UTM_ZONE_19N naiveStores =
        .error "Cannot transform naive geometries." ∧
      find_nearest_store idProj { x := 0, y := 0 } naiveStores =
        .error "Cannot transform naive geometries." ∧
      GeoSeries.to_crs idProj UTM_ZONE_19N
          { crs := some WGS84, pts := [{ x := 0, y := 0 }] } =
        .ok { crs := some UTM_ZONE_19N,
              pts := [idProj WGS84 UTM_ZONE_19N { x := 0, y := 0 }] }) :=
  ⟨rfl, by simp [naiveStores],
   undefined_crs_error idProj { x := 0, y := 0 } naiveStores rfl
     (by simp [naiveStores])⟩

lemma align_step {α : Type} (proj : CRS → CRS → Pt → Pt)
    (dorms : GeoFrame α) (s out : GeoFrame AttrVal)
    (h : (if s.crs ≠ dorms.crs then GeoFrame.to_crsTarget proj dorms.crs s
          else .ok s) = .ok out) :
    out.crs = dorms.crs ∧ (s.crs = dorms.crs → out = s) := by
  by_cases hc : s.crs = dorms.crs
  · rw [if_neg (fun hne => hne hc)] at h
    injection h with h'
    subst h'
    exact ⟨hc, fun _ => rfl⟩
  · rw [if_pos hc] at h
    obtain ⟨scrs, srows⟩ := s
    cases hd : dorms.crs with
    | none =>
        rw [hd] at h
        exact Except.noConfusion h
    | some t =>
        rw [hd] at h
        cases scrs with
        | none => exact Except.noConfusion h
        | some c₀ =>
            injection h with h'
            subst h'
            exact ⟨rfl, fun heq => absurd (hd ▸ heq) hc⟩

/-- Claim C4: `align_crs` is idempotent — aligning its own successful
output again returns that output bit-identically — and every input frame
whose CRS already equals the dorm frame's CRS passes through unchanged,
with no reprojection applied. -/
theorem align_crs_idempotent {α : Type} (proj : CRS → CRS → Pt → Pt)
    (dorms : GeoFrame α) (conv groc tjs c' g' t' : GeoFrame AttrVal)
    (h : align_crs proj dorms conv groc tjs = .ok (c', g', t')) :
    align_crs proj dorms c' g' t' = .ok (c', g', t') ∧
    (conv.crs = dorms.crs → c' = conv) ∧
    (groc.crs = dorms.crs → g' = groc) ∧
    (tjs.crs = dorms.crs → t' = tjs) := by
  rw [align_crs] at h
  cases h₁ : (if conv.crs ≠ dorms.crs
      then GeoFrame.to_crsTarget proj dorms.crs conv else .ok conv) with
  | error e =>
      rw [h₁] at h
      exact Except.noConfusion h
  | ok conv₁ =>
      rw [h₁] at h
      cases h₂ : (if groc.crs ≠ dorms.crs
          then GeoFrame.to_crsTarget proj dorms.crs groc else .ok groc) with
      | error e =>
          rw [h₂] at h
          exact Except.noConfusion h
      | ok groc₁ =>
          rw [h₂] at h
          cases h₃ : (if tjs.crs ≠ dorms.crs
              then GeoFrame.to_crsTarget proj dorms.crs tjs else .ok tjs) with
          | error e =>
              rw [h₃] at h
              exact Except.noConfusion h
          | ok tjs₁ =>
              rw [h₃] at h
              have h' := Except.ok.inj h
              have e₁ : conv₁ = c' := congrArg Prod.fst h'
              have e₂ : groc₁ = g' := congrArg (fun p => p.2.1) h'
              have e₃ : tjs₁ = t' := congrArg (fun p => p.2.2) h'
              subst e₁
              subst e₂
              subst e₃
              obtain ⟨hcrs₁, hpass₁⟩ := align_step proj dorms conv conv₁ h₁
              obtain ⟨hcrs₂, hpass₂⟩ := align_step proj dorms groc groc₁ h₂
              obtain ⟨hcrs₃, hpass₃⟩ := align_step proj dorms tjs tjs₁ h₃
              refine ⟨?_, fun hcv => (hpass₁ hcv).symm ▸ rfl,
                fun hcv => (hpass₂ hcv).symm ▸ rfl,
                fun hcv => (hpass₃ hcv).symm ▸ rfl⟩
              rw [align_crs, if_neg (fun hne => hne hcrs₁),
                if_neg (fun hne => hne hcrs₂), if_neg (fun hne => hne hcrs₃)]

/-- Witness for C4: aligning three already-aligned frames succeeds and is
idempotent with identical pass-through. -/
theorem align_crs_idempotent_witness :
    align_crs idProj dormsFixture emptyStores emptyStores emptyStores =
      .ok (emptyStores, emptyStores, emptyStores) ∧
    (align_crs idProj dormsFixture emptyStores emptyStores emptyStores =
        .ok (emptyStores, emptyStores, emptyStores) ∧
      (emptyStores.crs = dormsFixture.crs → emptyStores = emptyStores) ∧
      (emptyStores.crs = dormsFixture.crs → emptyStores = emptyStores) ∧
      (emptyStores.crs = dormsFixture.crs → emptyStores = emptyStores)) := by
  have halign : align_crs idProj dormsFixture emptyStores emptyStores
      emptyStores = .ok (emptyStores, emptyStores, emptyStores) := by
    rw [align_crs, if_neg (fun hne => hne rfl)]
  exact ⟨halign,
    align_crs_idempotent idProj dormsFixture emptyStores emptyStores
      emptyStores emptyStores emptyStores emptyStores halign⟩

/-- Claim C5: when the minimum distance is attained by several candidates,
`find_nearest_store` returns the candidate at the first position
attaining the minimum: the returned row sits at an index `k` that attains
the tied distance, no earlier index attains it, and `k` is at most the
position of either tied candidate. -/
theorem nearest_store_tie_first (proj : CRS → CRS → Pt → Pt)
    (dorm_geom : Pt) (stores_gdf : GeoFrame AttrVal) (c : CRS)
    (hc : stores_gdf.crs = some c) (hne : stores_gdf.rows ≠ [])
    (d : ℝ) (s : GeoRow AttrVal)
    (hres : find_nearest_store proj dorm_geom stores_gdf = .ok (some (d, s)))
    (i j : ℕ) (hij : i < j) (hj : j < stores_gdf.rows.length)
    (hdi : (storeDistances proj c dorm_geom stores_gdf).getD i 0 = d)
    (hdj : (storeDistances proj c dorm_geom stores_gdf).getD j 0 = d) :
    ∃ k, k < stores_gdf.rows.length ∧ k ≤ i ∧
      s = stores_gdf.rows.getD k defaultStoreRow ∧
      (storeDistances proj c dorm_geom stores_gdf).getD k 0 = d ∧
      ∀ m, m < k → (storeDistances proj c dorm_geom stores_gdf).getD m 0 ≠ d := by
  rw [find_nearest_store_ok proj dorm_geom stores_gdf c hc hne] at hres
  have h' := Option.some.inj (Except.ok.inj hres)
  have e_d : seriesMin (storeDistances proj c dorm_geom stores_gdf) = d :=
    congrArg Prod.fst h'
  have e_s : stores_gdf.rows.getD
      (firstIdxOf (seriesMin (storeDistances proj c dorm_geom stores_gdf))
        (storeDistances proj c dorm_geom stores_gdf)) defaultStoreRow = s :=
    congrArg Prod.snd h'
  have hdne : storeDistances proj c dorm_geom stores_gdf ≠ [] := by
    simpa [storeDistances] using hne
  have hmem := seriesMin_mem _ hdne
  have hlen : (storeDistances proj c dorm_geom stores_gdf).length =
      stores_gdf.rows.length := by
    simp [storeDistances]
  have hidx := firstIdxOf_lt_length _ _ hmem
  rw [e_d] at hmem hidx e_s
  refine ⟨firstIdxOf d (storeDistances proj c dorm_geom stores_gdf),
    hlen ▸ hidx, ?_, e_s.symm, getD_firstIdxOf _ _ hmem 0,
    fun m hm => getD_ne_of_lt_firstIdxOf _ _ m hm 0⟩
  by_contra hki
  push_neg at hki
  exact getD_ne_of_lt_firstIdxOf _ _ i hki 0 hdi

lemma tie_min_eval :
    seriesMin (storeDistances idProj WGS84 { x := 0, y := 0 } tieFixture) =
      pdist { x := 0, y := 50 } { x := 0, y := 0 } := by
  have hle : pdist { x := 0, y := 50 } { x := 0, y := 0 } ≤
      pdist { x := 0, y := 100 } { x := 0, y := 0 } := by
    rw [pdist, pdist]
    apply Real.sqrt_le_sqrt
    norm_num
  show List.foldl min (pdist { x := 0, y := 50 } { x := 0, y := 0 })
      [pdist { x := 0, y := 50 } { x := 0, y := 0 },
       pdist { x := 0, y := 100 } { x := 0, y := 0 }] =
    pdist { x := 0, y := 50 } { x := 0, y := 0 }
  rw [List.foldl_cons, min_self, List.foldl_cons, List.foldl_nil,
    min_eq_left hle]

/-- Witness for C5: two candidates tied at distance `pdist (0,50) (0,0)`
occupying positions 0 and 1; the resolver returns the one at position 0. -/
theorem nearest_store_tie_first_witness :
    tieFixture.crs = some WGS84 ∧ tieFixture.rows ≠ [] ∧
    find_nearest_store idProj { x := 0, y := 0 } tieFixture =
      .ok (some (pdist { x := 0, y := 50 } { x := 0, y := 0 }, tieRowA)) ∧
    (0 : ℕ) < 1 ∧ 1 < tieFixture.rows.length ∧
    (storeDistances idProj WGS84 { x := 0, y := 0 } tieFixture).getD 0 0 =
      pdist { x := 0, y := 50 } { x := 0, y := 0 } ∧
    (storeDistances idProj WGS84 { x := 0, y := 0 } tieFixture).getD 1 0 =
      pdist { x := 0, y := 50 } { x := 0, y := 0 } ∧
    (∃ k, k < tieFixture.rows.length ∧ k ≤ 0 ∧
      tieRowA = tieFixture.rows.getD k defaultStoreRow ∧
      (storeDistances idProj WGS84 { x := 0, y := 0 } tieFixture).getD k 0 =
        pdist { x := 0, y := 50 } { x := 0, y := 0 } ∧
      ∀ m, m < k →
        (storeDistances idProj WGS84 { x := 0, y := 0 } tieFixture).getD m 0 ≠
          pdist { x := 0, y := 50 } { x := 0, y := 0 }) := by
  have hne : tieFixture.rows ≠ [] := by simp [tieFixture]
  have hres : find_nearest_store idProj { x := 0, y := 0 } tieFixture =
      .ok (some (pdist { x := 0, y := 50 } { x := 0, y := 0 }, tieRowA)) := by
    rw [find_nearest_store_ok idProj { x := 0, y := 0 } tieFixture WGS84 rfl
      hne, tie_min_eval]
    rw [show firstIdxOf (pdist { x := 0, y := 50 } { x := 0, y := 0 })
        (storeDistances idProj WGS84 { x := 0, y := 0 } tieFixture) = 0 from
      by rw [show storeDistances idProj WGS84 { x := 0, y := 0 } tieFixture =
          pdist { x := 0, y := 50 } { x := 0, y := 0 } ::
            [pdist { x := 0, y := 50 } { x := 0, y := 0 },
             pdist { x := 0, y := 100 } { x := 0, y := 0 }] from rfl,
        firstIdxOf, if_pos rfl]]
    rfl
  exact ⟨rfl, hne, hres, by decide, by simp [tieFixture], rfl, rfl,
    nearest_store_tie_first idProj { x := 0, y := 0 } tieFixture WGS84 rfl
      hne (pdist { x := 0, y := 50 } { x := 0, y := 0 }) tieRowA hres 0 1
      (by decide) (by simp [tieFixture]) rfl rfl⟩

/-! ## Cell-update lemmas -/

lemma lookup_setField_self {β : Type} (k : String) (v : β)
    (l : List (String × β)) : (setField k v l).lookup k = some v := by
  induction l with
  | nil => simp [setField]
  | cons p rest ih =>
      obtain ⟨k₂, v₂⟩ := p
      by_cases h : k₂ = k
      · subst h
        simp [setField]
      · rw [setField, if_neg h]
        simpa [List.lookup_cons, beq_false_of_ne (Ne.symm h)] using ih

lemma lookup_setField_ne {β : Type} (k k' : String) (v : β)
    (l : List (String × β)) (h : k' ≠ k) :
    (setField k v l).lookup k' = l.lookup k' := by
  induction l with
  | nil => simp [setField, h]
  | cons p rest ih =>
      obtain ⟨k₂, v₂⟩ := p
      by_cases h₂ : k₂ = k
      · subst h₂
        rw [setField, if_pos rfl]
        simp [List.lookup_cons, beq_false_of_ne h]
      · rw [setField, if_neg h₂]
        by_cases h₃ : k' = k₂
        · subst h₃
          simp [List.lookup_cons]
        · simpa [List.lookup_cons, beq_false_of_ne h₃] using ih

lemma setField_eq_self_of_lookup {β : Type} (k : String) (v : β)
    (l : List (String × β)) (h : l.lookup k = some v) : setField k v l = l := by
  induction l with
  | nil => simp at h
  | cons p rest ih =>
      obtain ⟨k₂, v₂⟩ := p
      by_cases h₂ : k₂ = k
      · subst h₂
        simp [List.lookup_cons] at h
        rw [setField, if_pos rfl, h]
      · rw [setField, if_neg h₂]
        rw [List.lookup_cons, beq_false_of_ne (Ne.symm h₂)] at h
        rw [ih h]

lemma lookup_writeAll_not_mem {β : Type} (ws l : List (String × β))
    (k : String) (hk : k ∉ ws.map Prod.fst) :
    (writeAll ws l).lookup k = l.lookup k := by
  induction ws generalizing l with
  | nil => rfl
  | cons w ws ih =>
      obtain ⟨k₁, v₁⟩ := w
      simp only [List.map_cons, List.mem_cons] at hk
      push_neg at hk
      rw [writeAll, ih _ hk.2, lookup_setField_ne _ _ _ _ hk.1]

lemma writeAll_eq_self {β : Type} (ws l : List (String × β))
    (h : ∀ p ∈ ws, l.lookup p.1 = some p.2) : writeAll ws l = l := by
  induction ws with
  | nil => rfl
  | cons w ws ih =>
      obtain ⟨k₁, v₁⟩ := w
      rw [writeAll, setField_eq_self_of_lookup _ _ _
        (h (k₁, v₁) (List.mem_cons_self _ _))]
      exact ih (fun p hp => h p (List.mem_cons.mpr (Or.inr hp)))

lemma lookup_writeAll_mem {β : Type} (ws l : List (String × β))
    (k : String) (v : β) (hnd : (ws.map Prod.fst).Nodup)
    (hmem : (k, v) ∈ ws) : (writeAll ws l).lookup k = some v := by
  induction ws generalizing l with
  | nil => cases hmem
  | cons w ws ih =>
      obtain ⟨k₁, v₁⟩ := w
      simp only [List.map_cons, List.nodup_cons] at hnd
      rcases List.mem_cons.mp hmem with h | h
      · obtain ⟨rfl, rfl⟩ := Prod.mk.injEq .. ▸ h
        rw [writeAll, lookup_writeAll_not_mem _ _ _ hnd.1, lookup_setField_self]
      · rw [writeAll]
        exact ih (setField k₁ v₁ l) hnd.2 h

/-- Claim C6: `filter_by_column` returns exactly the records satisfying
the predicate (exact match, or membership when the value is a list),
as a sublist of the source preserving order, identity and attribute
values, leaving the source untouched (it is a pure function of it);
in particular the postal-code allowlist [2116] on records with codes
[2116, 2117] returns exactly the single matching record unchanged. -/
theorem filter_by_column_correct {α : Type} [DecidableEq α]
    (data : GeoFrame α) (column : String) (value : PyVal α) :
    (filter_by_column data column value).crs = data.crs ∧
    (filter_by_column data column value).rows =
      data.rows.filter (rowMatches column value) ∧
    (filter_by_column data column value).rows.Sublist data.rows ∧
    (∀ r, r ∈ (filter_by_column data column value).rows ↔
      r ∈ data.rows ∧ rowMatches column value r = true) ∧
    filter_by_column tjFixture "postal_cod" (.vlist [.i 2116]) =
      { crs := tjFixture.crs, rows := [tjRow2116] } := by
  have hrows : (filter_by_column data column value).rows =
      data.rows.filter (rowMatches column value) := by
    cases value with
    | scalar v => rfl
    | vlist vs => rfl
  have hcrs : (filter_by_column data column value).crs = data.crs := by
    cases value with
    | scalar v => rfl
    | vlist vs => rfl
  refine ⟨hcrs, hrows, ?_, ?_, rfl⟩
  · rw [hrows]
    exact List.filter_sublist _
  · intro r
    rw [hrows]
    exact List.mem_filter

lemma nearestWrites_pharmacy (d : ℝ) (store : GeoRow AttrVal) :
    nearestWrites "pharmacy" "coname" "Unknown Pharmacy" d store =
      [("nearest_pharmacy_dist_m", DormVal.r d),
       ("nearest_pharmacy_miles", DormVal.r (d / METERS_PER_MILE)),
       ("nearest_pharmacy_name",
         ((store.attrs.lookup "coname").getD (.s "Unknown Pharmacy")).toDorm),
       ("nearest_pharmacy_geom", DormVal.g store.geometry)] := rfl

lemma lookup_pharmacy_miles (dorm : GeoRow DormVal) (d : ℝ)
    (store : GeoRow AttrVal) :
    ((add_store_info_to_dorm dorm (some (d, store)) "pharmacy" "coname"
        "Unknown Pharmacy").attrs).lookup "nearest_pharmacy_miles" =
      some (.r (d / METERS_PER_MILE)) := by
  rw [add_store_info_to_dorm]
  show (writeAll (nearestWrites "pharmacy" "coname" "Unknown Pharmacy" d
      store) dorm.attrs).lookup "nearest_pharmacy_miles" = _
  rw [nearestWrites_pharmacy, writeAll, writeAll, writeAll, writeAll,
    writeAll, lookup_setField_ne _ _ _ _ (by decide),
    lookup_setField_ne _ _ _ _ (by decide), lookup_setField_self]

/-- Claim C7: the resolver returns the raw projected distance in meters
(no unit conversion inside it), and the enrichment layer derives the
miles cell as that distance divided by the constant 1609.34; a single
candidate exactly 1609.34 m away yields a miles cell of exactly 1. -/
theorem miles_conversion :
    (∀ (dorm : GeoRow DormVal) (d : ℝ) (store : GeoRow AttrVal),
      ((add_store_info_to_dorm dorm (some (d, store)) "pharmacy" "coname"
          "Unknown Pharmacy").attrs).lookup "nearest_pharmacy_miles" =
        some (.r (d / METERS_PER_MILE))) ∧
    find_nearest_store idProj { x := 0, y := 0 } convFixture =
      .ok (some ((1609.34 : ℝ), cvsRow)) ∧
    (∃ dorms', add_nearest_store_columns idProj dormsFixture convFixture
        emptyStores emptyStores = .ok dorms' ∧
      ((dorms'.rows.getD 0
          { attrs := [], geometry := { x := 0, y := 0 } }).attrs).lookup
        "nearest_pharmacy_miles" = some (.r 1)) := by
  have hdist : pdist { x := 1609.34, y := 0 } { x := 0, y := 0 } =
      (1609.34 : ℝ) := by
    have h : (({ x := 1609.34, y := 0 } : Pt).x -
        ({ x := 0, y := 0 } : Pt).x) ^ 2 +
        (({ x := 1609.34, y := 0 } : Pt).y -
          ({ x := 0, y := 0 } : Pt).y) ^ 2 = (1609.34 : ℝ) ^ 2 := by
      norm_num
    rw [pdist, h, Real.sqrt_sq (by norm_num : (0:ℝ) ≤ 1609.34)]
  have hres : find_nearest_store idProj { x := 0, y := 0 } convFixture =
      .ok (some ((1609.34 : ℝ), cvsRow)) := by
    rw [show convFixture = { crs := some WGS84, rows := [cvsRow] } from rfl,
      find_nearest_store_singleton idProj { x := 0, y := 0 } WGS84 cvsRow,
      show idProj WGS84 UTM_ZONE_19N cvsRow.geometry = cvsRow.geometry
        from rfl,
      show idProj WGS84 UTM_ZONE_19N { x := 0, y := 0 } =
        ({ x := 0, y := 0 } : Pt) from rfl,
      show cvsRow.geometry = { x := 1609.34, y := 0 } from rfl, hdist]
  refine ⟨lookup_pharmacy_miles, hres, ?_⟩
  have hrow : enrich_one_dorm idProj convFixture emptyStores emptyStores
      dormRowFixture = .ok (add_store_info_to_dorm dormRowFixture
        (some ((1609.34 : ℝ), cvsRow)) "pharmacy" "coname"
        "Unknown Pharmacy") := by
    rw [enrich_one_dorm]
    rw [show find_nearest_store idProj dormRowFixture.geometry emptyStores =
        .ok none from rfl]
    rw [show dormRowFixture.geometry = { x := 0, y := 0 } from rfl, hres]
    rfl
  refine ⟨GeoFrame.mk dormsFixture.crs
    [add_store_info_to_dorm dormRowFixture (some ((1609.34 : ℝ), cvsRow))
      "pharmacy" "coname" "Unknown Pharmacy"], ?_, ?_⟩
  · rw [add_nearest_store_columns]
    rw [show dormsFixture.rows = [dormRowFixture] from rfl]
    rw [exMapM, hrow, exMapM]
  · show ((add_store_info_to_dorm dormRowFixture
        (some ((1609.34 : ℝ), cvsRow)) "pharmacy" "coname"
        "Unknown Pharmacy").attrs).lookup "nearest_pharmacy_miles" =
      some (.r 1)
    rw [lookup_pharmacy_miles dormRowFixture (1609.34 : ℝ) cvsRow]
    norm_num [METERS_PER_MILE]

lemma add_store_info_geometry (dorm : GeoRow DormVal)
    (res : Option (ℝ × GeoRow AttrVal)) (pre k dfl : String) :
    (add_store_info_to_dorm dorm res pre k dfl).geometry = dorm.geometry := by
  cases res with
  | none => rfl
  | some pr =>
      obtain ⟨d, st⟩ := pr
      rfl

lemma add_store_info_lookup_ne (dorm : GeoRow DormVal)
    (res : Option (ℝ × GeoRow AttrVal)) (pre k dfl col : String)
    (h : col ∉ nearestKeys pre) :
    ((add_store_info_to_dorm dorm res pre k dfl).attrs).lookup col =
      dorm.attrs.lookup col := by
  cases res with
  | none => rfl
  | some pr =>
      obtain ⟨d, st⟩ := pr
      rw [add_store_info_to_dorm]
      show (writeAll (nearestWrites pre k dfl d st) dorm.attrs).lookup col = _
      apply lookup_writeAll_not_mem
      rw [show (nearestWrites pre k dfl d st).map Prod.fst = nearestKeys pre
        from rfl]
      exact h

lemma add_store_info_lookup_mem (dorm : GeoRow DormVal) (d : ℝ)
    (st : GeoRow AttrVal) (pre k dfl : String)
    (hnd : (nearestKeys pre).Nodup) (kk : String) (vv : DormVal)
    (hp : (kk, vv) ∈ nearestWrites pre k dfl d st) :
    ((add_store_info_to_dorm dorm (some (d, st)) pre k dfl).attrs).lookup kk =
      some vv := by
  rw [add_store_info_to_dorm]
  show (writeAll (nearestWrites pre k dfl d st) dorm.attrs).lookup kk = some vv
  apply lookup_writeAll_mem
  · rw [show (nearestWrites pre k dfl d st).map Prod.fst = nearestKeys pre
      from rfl]
    exact hnd
  · exact hp

lemma add_store_info_eq_self (dorm : GeoRow DormVal) (d : ℝ)
    (st : GeoRow AttrVal) (pre k dfl : String)
    (h : ∀ p ∈ nearestWrites pre k dfl d st,
      dorm.attrs.lookup p.1 = some p.2) :
    add_store_info_to_dorm dorm (some (d, st)) pre k dfl = dorm := by
  obtain ⟨attrs₀, geom₀⟩ := dorm
  rw [add_store_info_to_dorm]
  show GeoRow.mk (writeAll (nearestWrites pre k dfl d st) attrs₀) geom₀ =
    GeoRow.mk attrs₀ geom₀
  rw [writeAll_eq_self _ _ h]

lemma enrich_one_dorm_idem (proj : CRS → CRS → Pt → Pt)
    (conv groc tjs : GeoFrame AttrVal) (row row' : GeoRow DormVal)
    (h : enrich_one_dorm proj conv groc tjs row = .ok row') :
    enrich_one_dorm proj conv groc tjs row' = .ok row' := by
  simp only [enrich_one_dorm] at h ⊢
  cases h₁ : find_nearest_store proj row.geometry groc with
  | error e =>
      rw [h₁] at h
      exact Except.noConfusion h
  | ok res₁ =>
      rw [h₁] at h
      cases h₂ : find_nearest_store proj row.geometry conv with
      | error e =>
          rw [h₂] at h
          exact Except.noConfusion h
      | ok res₂ =>
          rw [h₂] at h
          cases h₃ : find_nearest_store proj row.geometry tjs with
          | error e =>
              rw [h₃] at h
              exact Except.noConfusion h
          | ok res₃ =>
              rw [h₃] at h
              have hrow' := Except.ok.inj h
              have hg : row'.geometry = row.geometry := by
                rw [← hrow', add_store_info_geometry, add_store_info_geometry,
                  add_store_info_geometry]
              have hA₁ : add_store_info_to_dorm row' res₁ "grocery" "coname"
                  "Unknown Grocery Store" = row' := by
                cases res₁ with
                | none => rfl
                | some pr =>
                    obtain ⟨d₁, st₁⟩ := pr
                    apply add_store_info_eq_self
                    intro p hp
                    obtain ⟨kk, vv⟩ := p
                    have hp1 : kk ∈ nearestKeys "grocery" := by
                      rw [show nearestKeys "grocery" =
                        (nearestWrites "grocery" "coname"
                          "Unknown Grocery Store" d₁ st₁).map Prod.fst
                        from rfl]
                      exact List.mem_map_of_mem Prod.fst hp
                    rw [show nearestKeys "grocery" =
                      ["nearest_grocery_dist_m", "nearest_grocery_miles",
                       "nearest_grocery_name", "nearest_grocery_geom"]
                      from rfl] at hp1
                    have hcc : kk ∉ nearestKeys "tj" ∧
                        kk ∉ nearestKeys "pharmacy" := by
                      simp only [List.mem_cons, List.not_mem_nil,
                        or_false] at hp1
                      rcases hp1 with rfl | rfl | rfl | rfl <;>
                        exact ⟨by decide, by decide⟩
                    show row'.attrs.lookup kk = some vv
                    rw [← hrow', add_store_info_lookup_ne _ _ _ _ _ _ hcc.1,
                      add_store_info_lookup_ne _ _ _ _ _ _ hcc.2]
                    exact add_store_info_lookup_mem row d₁ st₁ "grocery"
                      "coname" "Unknown Grocery Store" (by decide) kk vv hp
              have hA₂ : add_store_info_to_dorm row' res₂ "pharmacy" "coname"
                  "Unknown Pharmacy" = row' := by
                cases res₂ with
                | none => rfl
                | some pr =>
                    obtain ⟨d₂, st₂⟩ := pr
                    apply add_store_info_eq_self
                    intro p hp
                    obtain ⟨kk, vv⟩ := p
                    have hp1 : kk ∈ nearestKeys "pharmacy" := by
                      rw [show nearestKeys "pharmacy" =
                        (nearestWrites "pharmacy" "coname" "Unknown Pharmacy"
                          d₂ st₂).map Prod.fst from rfl]
                      exact List.mem_map_of_mem Prod.fst hp
                    rw [show nearestKeys "pharmacy" =
                      ["nearest_pharmacy_dist_m", "nearest_pharmacy_miles",
                       "nearest_pharmacy_name", "nearest_pharmacy_geom"]
                      from rfl] at hp1
                    have htj : kk ∉ nearestKeys "tj" := by
                      simp only [List.mem_cons, List.not_mem_nil,
                        or_false] at hp1
                      rcases hp1 with rfl | rfl | rfl | rfl <;> decide
                    show row'.attrs.lookup kk = some vv
                    rw [← hrow', add_store_info_lookup_ne _ _ _ _ _ _ htj]
                    exact add_store_info_lookup_mem
                      (add_store_info_to_dorm row res₁ "grocery" "coname"
                        "Unknown Grocery Store") d₂ st₂ "pharmacy" "coname"
                      "Unknown Pharmacy" (by decide) kk vv hp
              have hA₃ : add_store_info_to_dorm row' res₃ "tj" "city_name"
                  "Trader Joe's" = row' := by
                cases res₃ with
                | none => rfl
                | some pr =>
                    obtain ⟨d₃, st₃⟩ := pr
                    apply add_store_info_eq_self
                    intro p hp
                    obtain ⟨kk, vv⟩ := p
                    show row'.attrs.lookup kk = some vv
                    rw [← hrow']
                    exact add_store_info_lookup_mem
                      (add_store_info_to_dorm
                        (add_store_info_to_dorm row res₁ "grocery" "coname"
                          "Unknown Grocery Store") res₂ "pharmacy" "coname"
                        "Unknown Pharmacy") d₃ st₃ "tj" "city_name"
                      "Trader Joe's" (by decide) kk vv hp
              rw [hg, h₁, h₂, h₃]
              show Except.ok (add_store_info_to_dorm (add_store_info_to_dorm
                (add_store_info_to_dorm row' res₁ "grocery" "coname"
                  "Unknown Grocery Store") res₂ "pharmacy" "coname"
                "Unknown Pharmacy") res₃ "tj" "city_name" "Trader Joe's") =
                Except.ok row'
              rw [hA₁, hA₂, hA₃]

lemma exMapM_forall₂ {σ γ : Type} (f : σ → Except String γ) (l : List σ)
    (l' : List γ) (h : exMapM f l = .ok l') :
    List.Forall₂ (fun a b => f a = .ok b) l l' := by
  induction l generalizing l' with
  | nil =>
      injection h with h'
      subst h'
      exact List.Forall₂.nil
  | cons a as ih =>
      rw [exMapM] at h
      cases h₁ : f a with
      | error e =>
          rw [h₁] at h
          exact Except.noConfusion h
      | ok b =>
          rw [h₁] at h
          cases h₂ : exMapM f as with
          | error e =>
              rw [h₂] at h
              exact Except.noConfusion h
          | ok bs =>
              rw [h₂] at h
              injection h with h'
              subst h'
              exact List.Forall₂.cons h₁ (ih bs h₂)

lemma exMapM_idem_of_forall₂ {σ : Type} (f : σ → Except String σ)
    (l l' : List σ) (hf : ∀ a b, f a = .ok b → f b = .ok b)
    (h : List.Forall₂ (fun a b => f a = .ok b) l l') :
    exMapM f l' = .ok l' := by
  induction h with
  | nil => rfl
  | cons hab htail ih =>
      rw [exMapM, hf _ _ hab, ih]

/-- Claim C8: enrichment is deterministic (a pure function in the model)
and idempotent: re-running `add_nearest_store_columns` on its own output
with the same candidate subsets succeeds and reproduces that output
exactly — the second pass overwrites every previously written cell with
the same value, leaving no partial update. -/
theorem enrichment_idempotent (proj : CRS → CRS → Pt → Pt)
    (dorms dorms' : GeoFrame DormVal)
    (conv groc tjs : GeoFrame AttrVal)
    (h : add_nearest_store_columns proj dorms conv groc tjs = .ok dorms') :
    add_nearest_store_columns proj dorms' conv groc tjs = .ok dorms' := by
  rw [add_nearest_store_columns] at h ⊢
  cases h₁ : exMapM (enrich_one_dorm proj conv groc tjs) dorms.rows with
  | error e =>
      rw [h₁] at h
      exact Except.noConfusion h
  | ok rows' =>
      rw [h₁] at h
      injection h with h'
      subst h'
      have hf := exMapM_forall₂ _ _ _ h₁
      have h₂ : exMapM (enrich_one_dorm proj conv groc tjs) rows' =
          .ok rows' :=
        exMapM_idem_of_forall₂ _ _ _
          (fun a b hab => enrich_one_dorm_idem proj conv groc tjs a b hab) hf
      rw [show ({ dorms with rows := rows' } : GeoFrame DormVal).rows = rows'
        from rfl, h₂]

/-- Witness for C8: a one-dorm frame enriched against empty candidate
sets; the pass succeeds and a second pass reproduces its output. -/
theorem enrichment_idempotent_witness :
    add_nearest_store_columns idProj dormsFixture emptyStores emptyStores
      emptyStores = .ok dormsFixture ∧
    add_nearest_store_columns idProj dormsFixture emptyStores emptyStores
      emptyStores = .ok dormsFixture :=
  ⟨rfl, enrichment_idempotent idProj dormsFixture dormsFixture emptyStores
    emptyStores emptyStores rfl⟩

/-- Claim C9: `geocode_address` maps all three geocoding failure modes —
no match, timeout, service error — uniformly to `none`, so no exception
escapes the geocoding step and the caller observes "no location". -/
theorem geocode_failures_none (geocode : String → GeoOutcome)
    (address : String)
    (h : geocode (address ++ ", Boston, MA") = .notFound ∨
      geocode (address ++ ", Boston, MA") = .timedOut ∨
      geocode (address ++ ", Boston, MA") = .serviceError) :
    geocode_address geocode address = none := by
  rw [geocode_address]
  rcases h with h | h | h <;> rw [h]

/-- Witness for C9: a geocoder that times out yields `none`. -/
theorem geocode_failures_none_witness :
    (timeoutGeocoder ("360 Huntington Ave" ++ ", Boston, MA") =
        GeoOutcome.notFound ∨
      timeoutGeocoder ("360 Huntington Ave" ++ ", Boston, MA") =
        GeoOutcome.timedOut ∨
      timeoutGeocoder ("360 Huntington Ave" ++ ", Boston, MA") =
        GeoOutcome.serviceError) ∧
    geocode_address timeoutGeocoder "360 Huntington Ave" = none :=
  ⟨Or.inr (Or.inl rfl),
   geocode_failures_none timeoutGeocoder "360 Huntington Ave"
     (Or.inr (Or.inl rfl))⟩

lemma enrich_one_dorm_frame (proj : CRS → CRS → Pt → Pt)
    (conv groc tjs : GeoFrame AttrVal) (a b : GeoRow DormVal)
    (h : enrich_one_dorm proj conv groc tjs a = .ok b) :
    b.geometry = a.geometry ∧ ∀ col, col ∉ nearest_column_names →
      b.attrs.lookup col = a.attrs.lookup col := by
  simp only [enrich_one_dorm] at h
  cases h₁ : find_nearest_store proj a.geometry groc with
  | error e =>
      rw [h₁] at h
      exact Except.noConfusion h
  | ok res₁ =>
      rw [h₁] at h
      cases h₂ : find_nearest_store proj a.geometry conv with
      | error e =>
          rw [h₂] at h
          exact Except.noConfusion h
      | ok res₂ =>
          rw [h₂] at h
          cases h₃ : find_nearest_store proj a.geometry tjs with
          | error e =>
              rw [h₃] at h
              exact Except.noConfusion h
          | ok res₃ =>
              rw [h₃] at h
              have hb := Except.ok.inj h
              constructor
              · rw [← hb, add_store_info_geometry, add_store_info_geometry,
                  add_store_info_geometry]
              · intro col hcol
                simp only [nearest_column_names, List.mem_append,
                  not_or] at hcol
                rw [← hb, add_store_info_lookup_ne _ _ _ _ _ _ hcol.2,
                  add_store_info_lookup_ne _ _ _ _ _ _ hcol.1.2,
                  add_store_info_lookup_ne _ _ _ _ _ _ hcol.1.1]

/-- Claim C10: the enrichment pass returns the dorm collection itself
(same CRS, same number of rows, in order — in-place mutation is modelled
by state passing), and for every dorm row it leaves the geometry and
every cell outside the twelve `nearest_{category}_{dist_m,miles,name,geom}`
columns (categories grocery, pharmacy, tj) exactly as they were. -/
theorem enrichment_frame_effect (proj : CRS → CRS → Pt → Pt)
    (dorms dorms' : GeoFrame DormVal) (conv groc tjs : GeoFrame AttrVal)
    (h : add_nearest_store_columns proj dorms conv groc tjs = .ok dorms') :
    dorms'.crs = dorms.crs ∧
    dorms'.rows.length = dorms.rows.length ∧
    List.Forall₂ (fun a b => b.geometry = a.geometry ∧
      ∀ col, col ∉ nearest_column_names →
        b.attrs.lookup col = a.attrs.lookup col) dorms.rows dorms'.rows := by
  rw [add_nearest_store_columns] at h
  cases h₁ : exMapM (enrich_one_dorm proj conv groc tjs) dorms.rows with
  | error e =>
      rw [h₁] at h
      exact Except.noConfusion h
  | ok rows' =>
      rw [h₁] at h
      injection h with h'
      subst h'
      have hf := exMapM_forall₂ _ _ _ h₁
      exact ⟨rfl, (hf.length_eq).symm,
        hf.imp (fun a b hab => enrich_one_dorm_frame proj conv groc tjs a b
          hab)⟩

/-- Witness for C10: enriching the one-dorm fixture against empty
candidate sets preserves CRS, row count, geometries, and every cell
outside the enrichment columns. -/
theorem enrichment_frame_effect_witness :
    add_nearest_store_columns idProj dormsFixture emptyStores emptyStores
      emptyStores = .ok dormsFixture ∧
    (dormsFixture.crs = dormsFixture.crs ∧
      dormsFixture.rows.length = dormsFixture.rows.length ∧
      List.Forall₂ (fun a b => b.geometry = a.geometry ∧
        ∀ col, col ∉ nearest_column_names →
          b.attrs.lookup col = a.attrs.lookup col)
        dormsFixture.rows dormsFixture.rows) :=
  ⟨rfl, enrichment_frame_effect idProj dormsFixture dormsFixture emptyStores
    emptyStores emptyStores rfl⟩
